import Mathlib

/-!
Verification of the blood-report analyzer's extraction-and-validation
pipeline.  The definitions below are shallow embeddings of the Python
source (`src/config/settings.py`, `src/utils/pdf_processor.py`,
`src/agents/recommendation_agent.py`, `src/agents/blood_analyzer.py`).
Machine floats are modelled by exact rationals (every literal in the
source tables is a decimal, and the only non-finite float is the
`float('inf')` upper bound of the HDL range, modelled by an explicit
infinity constructor).  External collaborators (PyPDF2, the JSON
parser, the LLM client) are modelled at their boundary as explicit
inputs or function parameters.
-/

namespace Blood

/-- Python `str.lower()` restricted to the ASCII report text handled
by the pipeline, written as an explicit character map. -/
def strLower (s : String) : String := String.mk (s.data.map Char.toLower)

/-- A float value drawn from the reference tables: either a finite
rational or positive infinity (`float('inf')`, used only as the upper
bound of the HDL range).  No NaN or negative infinity occurs in the
source. -/
inductive RVal where
  | fin : ℚ → RVal
  | inf : RVal
deriving DecidableEq

/-- `a <= b` on table values, matching IEEE comparison for the values
that occur (finite reals and +inf). -/
def RVal.le : RVal → RVal → Bool
  | _, .inf => true
  | .inf, .fin _ => false
  | .fin a, .fin b => decide (a ≤ b)

/-- Python `min` on two table values (no NaN involved). -/
def RVal.rmin (a b : RVal) : RVal := if RVal.le a b then a else b

/-- Python `max` on two table values (no NaN involved). -/
def RVal.rmax (a b : RVal) : RVal := if RVal.le a b then b else a

/-- Comparison of a measured rational value against a table bound:
`v <= bound` as Python evaluates `value <= normal_range[1]`. -/
def RVal.leF (v : ℚ) : RVal → Bool
  | .inf => true
  | .fin b => decide (v ≤ b)

/-- Comparison of a table bound against a measured rational value:
`bound <= v` as Python evaluates `normal_range[0] <= value`. -/
def RVal.geF (v : ℚ) : RVal → Bool
  | .inf => false
  | .fin b => decide (b ≤ v)

/-- A stored normal range: either a plain `(low, high)` pair or a
gender-keyed dict with exactly the keys `"male"` and `"female"`, the
two shapes that occur in `Settings.NORMAL_RANGES`. -/
inductive PRange where
  | fixed : RVal → RVal → PRange
  | byGender : RVal × RVal → RVal × RVal → PRange

/-- `Settings.NORMAL_RANGES` from `src/config/settings.py`, verbatim
(`byGender male female`). -/
def NORMAL_RANGES : List (String × PRange) := [
  ("hemoglobin", .byGender (.fin 13.0, .fin 17.0) (.fin 12.0, .fin 15.5)),
  ("white_blood_cells", .fixed (.fin 4000) (.fin 11000)),
  ("red_blood_cells", .byGender (.fin 4.5, .fin 5.5) (.fin 4.0, .fin 5.0)),
  ("platelets", .fixed (.fin 150000) (.fin 410000)),
  ("hematocrit", .byGender (.fin 40, .fin 50) (.fin 36, .fin 46)),
  ("mcv", .fixed (.fin 83) (.fin 101)),
  ("mch", .fixed (.fin 27) (.fin 32)),
  ("mchc", .fixed (.fin 32.5) (.fin 34.5)),
  ("rdw", .fixed (.fin 11.6) (.fin 14.0)),
  ("neutrophils", .fixed (.fin 50) (.fin 62)),
  ("lymphocytes", .fixed (.fin 20) (.fin 40)),
  ("eosinophils", .fixed (.fin 0) (.fin 6)),
  ("monocytes", .fixed (.fin 0) (.fin 10)),
  ("basophils", .fixed (.fin 0) (.fin 2)),
  ("glucose", .fixed (.fin 70) (.fin 100)),
  ("creatinine", .byGender (.fin 0.7, .fin 1.3) (.fin 0.6, .fin 1.1)),
  ("urea", .fixed (.fin 7) (.fin 20)),
  ("bilirubin", .fixed (.fin 0.3) (.fin 1.2)),
  ("cholesterol", .fixed (.fin 0) (.fin 200)),
  ("hdl", .byGender (.fin 40, .inf) (.fin 50, .inf)),
  ("ldl", .fixed (.fin 0) (.fin 100)),
  ("triglycerides", .fixed (.fin 0) (.fin 150)),
  ("alt", .byGender (.fin 10, .fin 40) (.fin 7, .fin 35)),
  ("ast", .byGender (.fin 10, .fin 40) (.fin 9, .fin 32)),
  ("alkaline_phosphatase", .fixed (.fin 44) (.fin 147)),
  ("hba1c", .fixed (.fin 4.0) (.fin 5.6)),
  ("fasting_insulin", .fixed (.fin 2.6) (.fin 24.9)),
  ("tsh", .fixed (.fin 0.27) (.fin 4.20)),
  ("t3", .fixed (.fin 80) (.fin 200)),
  ("t4", .fixed (.fin 5.1) (.fin 14.1)),
  ("vitamin_d", .fixed (.fin 20) (.fin 50)),
  ("vitamin_b12", .fixed (.fin 160) (.fin 950)),
  ("folate", .fixed (.fin 2.7) (.fin 17.0)),
  ("iron", .byGender (.fin 65, .fin 176) (.fin 50, .fin 170)),
  ("ferritin", .byGender (.fin 12, .fin 300) (.fin 12, .fin 150)),
  ("troponin", .fixed (.fin 0) (.fin 0.04)),
  ("ck_mb", .fixed (.fin 0) (.fin 6.3)),
  ("esr", .byGender (.fin 0, .fin 22) (.fin 0, .fin 29)),
  ("crp", .fixed (.fin 0) (.fin 3.0)),
  ("sodium", .fixed (.fin 136) (.fin 145)),
  ("potassium", .fixed (.fin 3.5) (.fin 5.1)),
  ("chloride", .fixed (.fin 98) (.fin 107)),
  ("calcium", .fixed (.fin 8.5) (.fin 10.2)),
  ("magnesium", .fixed (.fin 1.7) (.fin 2.2)),
  ("total_protein", .fixed (.fin 6.0) (.fin 8.3)),
  ("albumin", .fixed (.fin 3.5) (.fin 5.0)),
  ("globulin", .fixed (.fin 2.3) (.fin 3.4))]

/-- `Settings.get_normal_range` (`src/config/settings.py` 116-134).
The unknown-parameter `ValueError` is modelled by `Except.error`.  For
a gender-keyed dict the code runs `if gender and gender.lower() in
range_value`, returning that gender's pair, and otherwise synthesizes
`(min(male[0], female[0]), max(male[1], female[1]))` (the `.get`
defaults `(0, 0)` are unreachable since every gender dict in the table
has both keys). -/
def get_normal_range (parameter : String) (gender : Option String) :
    Except String (RVal × RVal) :=
  match NORMAL_RANGES.lookup parameter with
  | none => .error ("No normal range defined for " ++ parameter)
  | some (.fixed lo hi) => .ok (lo, hi)
  | some (.byGender m f) =>
    match gender with
    | some g =>
      if g ≠ "" ∧ (strLower g = "male" ∨ strLower g = "female") then
        if strLower g = "male" then .ok m else .ok f
      else .ok (RVal.rmin m.1 f.1, RVal.rmax m.2 f.2)
    | none => .ok (RVal.rmin m.1 f.1, RVal.rmax m.2 f.2)

/-- One entry of `Settings.CRITICAL_VALUES`: the optional
`critically_low` / `critically_high` keys. -/
structure CritThresholds where
  critically_low : Option ℚ
  critically_high : Option ℚ
deriving DecidableEq

/-- `Settings.CRITICAL_VALUES` from `src/config/settings.py`. -/
def CRITICAL_VALUES : List (String × CritThresholds) := [
  ("hemoglobin", ⟨some 7, some 20⟩),
  ("white_blood_cells", ⟨some 2000, some 20000⟩),
  ("platelets", ⟨some 50000, some 1000000⟩),
  ("hematocrit", ⟨some 20, some 60⟩),
  ("glucose", ⟨some 50, some 400⟩),
  ("creatinine", ⟨none, some 4.0⟩),
  ("potassium", ⟨some 2.5, some 6.0⟩),
  ("sodium", ⟨some 125, some 160⟩),
  ("troponin", ⟨none, some 0.04⟩)]

/-- `"critically_low" in thresholds and value < thresholds["critically_low"]`. -/
def lowTrig (t : CritThresholds) (v : ℚ) : Bool :=
  match t.critically_low with
  | some lo => decide (v < lo)
  | none => false

/-- `"critically_high" in thresholds and value > thresholds["critically_high"]`. -/
def highTrig (t : CritThresholds) (v : ℚ) : Bool :=
  match t.critically_high with
  | some hi => decide (hi < v)
  | none => false

/-- The dict returned by `Settings.is_critical_value`; for an unknown
parameter the Python dict has only the `is_critical` key, modelled by
`none` in the other two fields. -/
structure CritResult where
  is_critical : Bool
  level : Option String
  message : Option String
deriving DecidableEq

/-- `Settings.is_critical_value` (`src/config/settings.py` 136-162):
unknown parameter gives `is_critical=False`; otherwise the low check
runs first (strict `<`), then the high check (strict `>`), else the
`normal` result. -/
def is_critical_value (parameter : String) (value : ℚ) : CritResult :=
  match CRITICAL_VALUES.lookup parameter with
  | none => ⟨false, none, none⟩
  | some t =>
    if lowTrig t value then
      ⟨true, some "critically_low",
        some ("Critically low " ++ parameter ++ ": " ++ toString value)⟩
    else if highTrig t value then
      ⟨true, some "critically_high",
        some ("Critically high " ++ parameter ++ ": " ++ toString value)⟩
    else ⟨false, some "normal", some ""⟩

/-- One element of the `critical_values` list built by
`RecommendationAgent.check_emergency_indicators`. -/
structure CriticalEntry where
  parameter : String
  value : ℚ
  status : Option String
  message : Option String

/-- One element of the `urgent_consultation` list built by
`RecommendationAgent.check_emergency_indicators`. -/
structure UrgentEntry where
  parameter : String
  value : ℚ
  message : String

/-- The dict returned by
`RecommendationAgent.check_emergency_indicators`. -/
structure EmergencyIndicators where
  critical_values : List CriticalEntry
  urgent_consultation : List UrgentEntry
  emergency_level : String

/-- Body of the critical-scan loop in `check_emergency_indicators`
(`src/agents/recommendation_agent.py` 283-293): a critical reading is
appended and the level set to `"critical"`. -/
def critStep (acc : EmergencyIndicators) (pv : String × ℚ) :
    EmergencyIndicators :=
  let c := is_critical_value pv.1 pv.2
  if c.is_critical then
    { acc with
      critical_values := acc.critical_values ++ [⟨pv.1, pv.2, c.level, c.message⟩],
      emergency_level := "critical" }
  else acc

/-- One firing urgent rule: append to `urgent_consultation` and raise
the level to `"urgent"` only when it is still `"normal"`. -/
def urgentRule (e : EmergencyIndicators) (param : String) (value : ℚ)
    (msg : String) : EmergencyIndicators :=
  { e with
    urgent_consultation := e.urgent_consultation ++ [⟨param, value, msg⟩],
    emergency_level :=
      if e.emergency_level = "normal" then "urgent" else e.emergency_level }

/-- One urgent-rule block: `if "param" in blood_data and
blood_data["param"] <cond>` guarding `urgentRule`. -/
def matchRule (e : EmergencyIndicators) (o : Option ℚ) (cond : ℚ → Bool)
    (param : String) (msg : String) : EmergencyIndicators :=
  match o with
  | some v => if cond v then urgentRule e param v msg else e
  | none => e

/-- `RecommendationAgent.check_emergency_indicators`
(`src/agents/recommendation_agent.py` 275-323): scan every reading for
critical values, then the three named clinical rules (hemoglobin < 13,
platelets <= 150000, hematocrit > 55). -/
def check_emergency_indicators (bd : List (String × ℚ)) :
    EmergencyIndicators :=
  let e1 := bd.foldl critStep ⟨[], [], "normal"⟩
  let e2 := matchRule e1 (bd.lookup "hemoglobin") (fun h => decide (h < 13.0))
    "hemoglobin" "Low hemoglobin suggests anemia - requires medical evaluation"
  let e3 := matchRule e2 (bd.lookup "platelets") (fun p => decide (p ≤ 150000))
    "platelets" "Low/borderline platelets - requires monitoring and medical consultation"
  matchRule e3 (bd.lookup "hematocrit") (fun h => decide (55 < h))
    "hematocrit" "High hematocrit - may indicate polycythemia or dehydration"

/-- The disjunction of the three named clinical urgent rules, as the
claim states them. -/
def urgentFires (bd : List (String × ℚ)) : Prop :=
  (∃ h, bd.lookup "hemoglobin" = some h ∧ h < 13.0) ∨
  (∃ p, bd.lookup "platelets" = some p ∧ p ≤ 150000) ∨
  (∃ h, bd.lookup "hematocrit" = some h ∧ 55 < h)

/-- Per-parameter status computed by `BloodAnalyzer.quick_analysis`
(`src/agents/blood_analyzer.py` 317-339): range check against the
ungendered normal range, overridden to `"critical"` by the
critical-value check; an unknown parameter's `ValueError` is caught
and gives `"unknown"` (the non-tuple `isinstance` branch is
unreachable since every successful lookup yields a pair). -/
def quickStatus (param : String) (value : ℚ) : String :=
  match get_normal_range param none with
  | .error _ => "unknown"
  | .ok (lo, hi) =>
    let s := if RVal.geF value lo && RVal.leF value hi then "normal"
      else "abnormal"
    if (is_critical_value param value).is_critical then "critical" else s

/-- The `reasonable_ranges` table local to
`BloodReportProcessor.validate_extracted_data`
(`src/utils/pdf_processor.py` 320-336). -/
def reasonable_ranges : List (String × (ℚ × ℚ)) := [
  ("hemoglobin", (5, 25)),
  ("white_blood_cells", (1, 50)),
  ("red_blood_cells", (2, 8)),
  ("platelets", (50, 1000)),
  ("glucose", (30, 500)),
  ("cholesterol", (50, 500)),
  ("hdl", (10, 150)),
  ("ldl", (10, 300)),
  ("triglycerides", (20, 1000)),
  ("creatinine", (0.5, 15)),
  ("urea", (5, 150)),
  ("hba1c", (3, 20)),
  ("tsh", (0.1, 50)),
  ("vitamin_d", (5, 200)),
  ("vitamin_b12", (100, 2000))]

/-- The warning string appended for an out-of-range value (the Rat
rendering of the numbers stands in for Python's float rendering). -/
def unusualMsg (param : String) (v mn mx : ℚ) : String :=
  "Unusual value for " ++ param ++ ": " ++ toString v ++
    " (expected range: " ++ toString mn ++ "-" ++ toString mx ++ ")"

/-- `BloodReportProcessor.validate_extracted_data`
(`src/utils/pdf_processor.py` 314-348).  The input dict may hold
`None` values (nulls from the external-model path), modelled by
`Option ℚ`; iteration order is the dict's insertion order, modelled by
the list order. -/
def validate_extracted_data (data : List (String × Option ℚ)) :
    List (String × ℚ) × List String :=
  match data with
  | [] => ([], [])
  | (param, v) :: rest =>
    let r := validate_extracted_data rest
    match v, reasonable_ranges.lookup param with
    | some value, some (mn, mx) =>
      if mn ≤ value ∧ value ≤ mx then ((param, value) :: r.1, r.2)
      else (r.1, unusualMsg param value mn mx :: r.2)
    | some value, none => ((param, value) :: r.1, r.2)
    | none, _ => r

/-- Spec-side description of which input entries survive validation: a
present value with no declared sanity range, or a present value inside
its sanity range. -/
def keptEntry (e : String × Option ℚ) : Option (String × ℚ) :=
  match e.2, reasonable_ranges.lookup e.1 with
  | some value, some (mn, mx) =>
    if mn ≤ value ∧ value ≤ mx then some (e.1, value) else none
  | some value, none => some (e.1, value)
  | none, _ => none

/-- Spec-side description of which input entries produce a warning: a
present value outside its declared sanity range. -/
def warnEntry (e : String × Option ℚ) : Option String :=
  match e.2, reasonable_ranges.lookup e.1 with
  | some value, some (mn, mx) =>
    if mn ≤ value ∧ value ≤ mx then none
    else some (unusualMsg e.1 value mn mx)
  | _, _ => none

/-! ### A small regex engine

`parse_blood_values`, `extract_patient_info` and their pattern tables
(`src/utils/pdf_processor.py` 166-312) use `re.search` with
`re.IGNORECASE` (and `re.MULTILINE`, irrelevant here: no pattern uses
anchors).  The patterns use only literals, the classes `\d`, `\s`,
`[\s\n]`, `[\s:]`, `[-:]`, the dash-slash class, `[a-zA-Z\s]`, `.` (no DOTALL), the
quantifiers `*`, `*?`, `+`, `?`, `{m,n}`, one capturing group per
pattern, and non-capturing alternation of literal words.  The engine
below implements exactly that fragment with Python's backtracking
order (greedy prefers consuming, lazy prefers not, alternatives are
tried left to right, search positions left to right). -/

/-- One element of a translated pattern.  Quantifiers apply to single
character classes, which covers every pattern in the source tables.
`gOpen`/`gClose` delimit the (single) capturing group. -/
inductive Item where
  | one : (Char → Bool) → Item
  | star : Bool → (Char → Bool) → Item
  | opt : (Char → Bool) → Item
  | rep : ℕ → ℕ → (Char → Bool) → Item
  | alt : List (List Item) → Item
  | gOpen : Item
  | gClose : Item

/-- Backtracking matcher.  `gstart` holds the suffix at the open of
the capturing group, `cap` the last completed capture; on success the
capture is returned.  `fuel` only bounds recursion depth: every call
either consumes a character or strips pattern structure, so any fuel
above `s.length` plus the flattened pattern size is enough. -/
def reMatch (fuel : ℕ) (items : List Item) (s : List Char)
    (gstart : Option (List Char)) (cap : Option (List Char)) :
    Option (Option (List Char)) :=
  match fuel with
  | 0 => none
  | f + 1 =>
    match items with
    | [] => some cap
    | .gOpen :: rest => reMatch f rest s (some s) cap
    | .gClose :: rest =>
      match gstart with
      | some g => reMatch f rest s none (some (g.take (g.length - s.length)))
      | none => none
    | .one p :: rest =>
      match s with
      | c :: cs => if p c then reMatch f rest cs gstart cap else none
      | [] => none
    | .opt p :: rest =>
      match s with
      | c :: cs =>
        if p c then
          match reMatch f rest cs gstart cap with
          | some r => some r
          | none => reMatch f rest s gstart cap
        else reMatch f rest s gstart cap
      | [] => reMatch f rest s gstart cap
    | .star lazy p :: rest =>
      match s with
      | c :: cs =>
        if lazy then
          match reMatch f rest s gstart cap with
          | some r => some r
          | none =>
            if p c then reMatch f (.star lazy p :: rest) cs gstart cap
            else none
        else
          if p c then
            match reMatch f (.star lazy p :: rest) cs gstart cap with
            | some r => some r
            | none => reMatch f rest s gstart cap
          else reMatch f rest s gstart cap
      | [] => reMatch f rest s gstart cap
    | .rep lo hi p :: rest =>
      if 0 < lo then
        match s with
        | c :: cs =>
          if p c then reMatch f (.rep (lo - 1) (hi - 1) p :: rest) cs gstart cap
          else none
        | [] => none
      else if 0 < hi then
        match s with
        | c :: cs =>
          if p c then
            match reMatch f (.rep 0 (hi - 1) p :: rest) cs gstart cap with
            | some r => some r
            | none => reMatch f rest s gstart cap
          else reMatch f rest s gstart cap
        | [] => reMatch f rest s gstart cap
      else reMatch f rest s gstart cap
    | .alt cases :: rest =>
      match cases with
      | [] => none
      | c :: more =>
        match reMatch f (c ++ rest) s gstart cap with
        | some r => some r
        | none => reMatch f (.alt more :: rest) s gstart cap

/-- `re.search`: try every start position left to right, return the
captured group of the first position where the pattern matches (every
source pattern contains its group on the mandatory path, so a match
without a capture does not occur on the table patterns). -/
def reSearch (items : List Item) (text : String) : Option String :=
  let s := text.data
  (List.range (s.length + 1)).findSome? (fun i =>
    match reMatch (s.length + 1000) items (s.drop i) none none with
    | some (some g) => some (String.mk g)
    | some none => none
    | none => none)

/-- `\d` (the report text is ASCII). -/
def isDigitC (c : Char) : Bool := c.isDigit

/-- `\s` (Python's ASCII whitespace class). -/
def isSpaceC (c : Char) : Bool :=
  c == ' ' || c == '\t' || c == '\n' || c == '\r' || c == '\x0b' || c == '\x0c'

/-- `.` without DOTALL: anything but a newline. -/
def anyC (c : Char) : Bool := c != '\n'

/-- A literal character under `re.IGNORECASE`. -/
def li (c : Char) : Item := .one (fun d => d.toLower == c.toLower)

/-- A literal string under `re.IGNORECASE`. -/
def lstr (s : String) : List Item := s.data.map li

/-- A case-sensitive literal string (the date patterns are searched
without `re.IGNORECASE`). -/
def lcs (s : String) : List Item :=
  s.data.map (fun c => Item.one (fun d => d == c))

/-- `[\s\n]`. -/
def spaceNl (c : Char) : Bool := isSpaceC c || c == '\n'

/-- `[\s:]`. -/
def spaceColon (c : Char) : Bool := isSpaceC c || c == ':'

/-- A literal dot (`\.`). -/
def dotC (c : Char) : Bool := c == '.'

/-- An optional literal `s` (`s?`), case-insensitive. -/
def sOpt : Item := .opt (fun c => c.toLower == 's')

/-- The numeric capture `(\d+\.?\d*)`. -/
def grpNum : List Item :=
  [.gOpen, .one isDigitC, .star false isDigitC, .opt dotC,
    .star false isDigitC, .gClose]

/-- The integer capture `(\d+)`. -/
def grpInt : List Item :=
  [.gOpen, .one isDigitC, .star false isDigitC, .gClose]

/-- The `patterns` table of `BloodReportProcessor.parse_blood_values`
(`src/utils/pdf_processor.py` 168-233), one translated entry per
source regex, in source order. -/
def bloodPatterns : List (String × List (List Item)) := [
  ("hemoglobin", [
    lstr "Hemoglobin" ++ [.star false isSpaceC] ++ lstr "(Hb)" ++
      [.star false spaceNl] ++ grpNum,
    lstr "Hemoglobin" ++ [.star true anyC] ++ grpNum,
    lstr "Hb" ++ [.star false spaceColon] ++ grpNum]),
  ("white_blood_cells", [
    lstr "Total WBC count" ++ [.star false spaceNl] ++ grpInt,
    lstr "WBC" ++ [.star true anyC] ++ grpInt,
    lstr "White Blood Cell" ++ [sOpt] ++ [.star true anyC] ++ grpInt]),
  ("red_blood_cells", [
    lstr "Total RBC count" ++ [.star false spaceNl] ++ grpNum,
    lstr "RBC" ++ [.star true anyC] ++ grpNum,
    lstr "Red Blood Cell" ++ [sOpt] ++ [.star true anyC] ++ grpNum]),
  ("platelets", [
    lstr "Platelet Count" ++ [.star false spaceNl] ++ grpInt,
    lstr "Platelet" ++ [sOpt] ++ [.star true anyC] ++ grpInt,
    lstr "PLT" ++ [.star true anyC] ++ grpInt]),
  ("hematocrit", [
    lstr "Packed Cell Volume" ++ [.star false isSpaceC] ++ lstr "(PCV)" ++
      [.star false spaceNl] ++ grpNum,
    lstr "PCV" ++ [.star true anyC] ++ grpNum,
    lstr "Hematocrit" ++ [.star true anyC] ++ grpNum]),
  ("mcv", [
    lstr "Mean Corpuscular Volume" ++ [.star false isSpaceC] ++
      lstr "(MCV)" ++ [.star false spaceNl] ++ grpNum,
    lstr "MCV" ++ [.star true anyC] ++ grpNum]),
  ("mch", [
    lstr "MCH" ++ [.star false spaceNl] ++ grpNum,
    lstr "Mean Corpuscular Hemoglobin" ++ [.star false spaceNl] ++ grpNum]),
  ("mchc", [
    lstr "MCHC" ++ [.star false spaceNl] ++ grpNum,
    lstr "Mean Corpuscular Hemoglobin Concentration" ++
      [.star false spaceNl] ++ grpNum]),
  ("rdw", [
    lstr "RDW" ++ [.star false spaceNl] ++ grpNum,
    lstr "Red Cell Distribution Width" ++ [.star false spaceNl] ++ grpNum]),
  ("neutrophils", [
    lstr "Neutrophils" ++ [.star false spaceNl] ++ grpInt,
    lstr "Neutrophil" ++ [.star true anyC] ++ grpInt]),
  ("lymphocytes", [
    lstr "Lymphocytes" ++ [.star false spaceNl] ++ grpInt,
    lstr "Lymphocyte" ++ [.star true anyC] ++ grpInt]),
  ("eosinophils", [
    lstr "Eosinophils" ++ [.star false spaceNl] ++ grpInt,
    lstr "Eosinophil" ++ [.star true anyC] ++ grpInt]),
  ("monocytes", [
    lstr "Monocytes" ++ [.star false spaceNl] ++ grpInt,
    lstr "Monocyte" ++ [.star true anyC] ++ grpInt]),
  ("basophils", [
    lstr "Basophils" ++ [.star false spaceNl] ++ grpInt,
    lstr "Basophil" ++ [.star true anyC] ++ grpInt])]

/-- The natural number denoted by a digit string. -/
def natOfDigits (ds : List Char) : ℕ :=
  ds.foldl (fun n c => n * 10 + (c.toNat - 48)) 0

/-- Python `float()` on the numeral shapes producible by the capture
groups `(\d+\.?\d*)` and `(\d+)` — digits with at most one trailing
dot segment.  Any other input raises `ValueError`, modelled by
`none`. -/
def pyFloat (s : String) : Option ℚ :=
  let cs := s.data
  let ip := cs.takeWhile Char.isDigit
  let rest := cs.dropWhile Char.isDigit
  if ip.isEmpty then none
  else
    match rest with
    | [] => some (natOfDigits ip)
    | '.' :: frac =>
      if frac.all Char.isDigit then
        some ((natOfDigits ip : ℚ) +
          (natOfDigits frac : ℚ) / ((10 : ℚ) ^ frac.length))
      else none
    | _ => none

/-- Python `int()` on a capture of `(\d+)`; other inputs raise
`ValueError`, modelled by `none`. -/
def pyInt (s : String) : Option ℕ :=
  if !s.data.isEmpty && s.data.all Char.isDigit then some (natOfDigits s.data)
  else none

/-- The inner loop of `parse_blood_values` for one parameter
(`src/utils/pdf_processor.py` 241-250): try candidate patterns in
order; a match whose capture parses breaks out with the value, a match
whose capture fails `float()` falls through to the next candidate, as
does a non-match. -/
def tryPatterns (pats : List (List Item)) (text : String) : Option ℚ :=
  match pats with
  | [] => none
  | pat :: rest =>
    match reSearch pat text with
    | none => tryPatterns rest text
    | some cap =>
      match pyFloat cap with
      | some v => some v
      | none => tryPatterns rest text

/-- `BloodReportProcessor.parse_blood_values`
(`src/utils/pdf_processor.py` 166-253): the results dict holds, in
table order, each parameter whose candidate list produced a value. -/
def parse_blood_values (text : String) : List (String × ℚ) :=
  bloodPatterns.filterMap
    (fun pp => (tryPatterns pp.2 text).map (fun v => (pp.1, v)))

/-! ### Patient-info extraction -/

/-- Python `\w` on the ASCII report text. -/
def pyWordChar (c : Char) : Bool := c.isAlphanum || c == '_'

/-- The word `w` occurs at position `i` of `s` with a word boundary on
each side.  For the gender patterns
`\b(?:male|m)\b(?!\w)` / `\b(?:female|f)\b(?!\w)` the trailing `\b`
and `(?!\w)` coincide: the next character is absent or not a word
character. -/
def wholeWordAt (s : List Char) (i : ℕ) (w : List Char) : Bool :=
  ((s.drop i).take w.length == w) &&
    (i == 0 || !(pyWordChar (s.getD (i - 1) ' '))) &&
    !(pyWordChar (s.getD (i + w.length) ' '))

/-- `re.search` of a whole-word alternation: does any alternative
occur as a whole word anywhere in `s`? -/
def hasWholeWordAlt (ws : List (List Char)) (s : List Char) : Bool :=
  (List.range (s.length + 1)).any (fun i => ws.any (fun w => wholeWordAt s i w))

/-- The alternatives of `\b(?:male|m)\b(?!\w)`. -/
def genderMale : List (List Char) := [['m', 'a', 'l', 'e'], ['m']]

/-- The alternatives of `\b(?:female|f)\b(?!\w)`. -/
def genderFemale : List (List Char) := [['f', 'e', 'm', 'a', 'l', 'e'], ['f']]

/-- The gender branch of `extract_patient_info`
(`src/utils/pdf_processor.py` 277-281), applied to the lowercased
text: male first, else female, else absent. -/
def extract_gender (tl : List Char) : Option String :=
  if hasWholeWordAlt genderMale tl then some "male"
  else if hasWholeWordAlt genderFemale tl then some "female"
  else none

/-- The four `age_patterns` (`src/utils/pdf_processor.py` 261-266),
searched on the lowercased text. -/
def agePatterns : List (List Item) := [
  lstr "age" ++ [.star false spaceColon] ++ grpInt,
  grpInt ++ [.star false isSpaceC] ++ lstr "year" ++ [sOpt] ++
    [.star false isSpaceC] ++ lstr "old",
  grpInt ++ [.star false isSpaceC] ++ lstr "yr" ++ [sOpt],
  lstr "age" ++ [.star false isSpaceC] ++
    [.one (fun c => c == '-' || c == ':')] ++ [.star false isSpaceC] ++ grpInt]

/-- The age loop: first pattern whose capture parses as `int` wins. -/
def firstAge (tl : String) : Option ℕ :=
  agePatterns.findSome? (fun pat => (reSearch pat tl).bind pyInt)

/-- `[a-zA-Z\s]`. -/
def alphaSpace (c : Char) : Bool := c.isAlpha || isSpaceC c

/-- The name capture `([a-zA-Z\s]{2,30})`. -/
def grpName : List Item := [.gOpen, .rep 2 30 alphaSpace, .gClose]

/-- The four `name_patterns` (`src/utils/pdf_processor.py` 284-289),
searched case-insensitively on the original text. -/
def namePatterns : List (List Item) := [
  [Item.alt [lstr "name", lstr "patient name", lstr "patient"]] ++
    [.star false spaceColon] ++ grpName,
  lstr "mr" ++ [.opt dotC] ++ [.one isSpaceC, .star false isSpaceC] ++ grpName,
  lstr "mr" ++ [sOpt] ++ [.opt dotC] ++
    [.one isSpaceC, .star false isSpaceC] ++ grpName,
  lstr "patient:" ++ [.star false isSpaceC] ++ grpName]

/-- Python `str.strip()` on ASCII text. -/
def pyStrip (s : String) : String :=
  String.mk
    (((s.data.dropWhile Char.isWhitespace).reverse.dropWhile
      Char.isWhitespace).reverse)

/-- The name loop (`src/utils/pdf_processor.py` 291-297): the first
pattern whose stripped capture is longer than 2 characters and free of
digits wins; a shorter or digit-bearing capture falls through to the
next pattern. -/
def firstName (text : String) : Option String :=
  namePatterns.findSome? (fun pat =>
    match reSearch pat text with
    | some g =>
      let nm := pyStrip g
      if 2 < nm.length && !(nm.data.any Char.isDigit) then some nm else none
    | none => none)

/-- The dash-slash character class. -/
def dashSlash (c : Char) : Bool := c == '-' || c == '/'

/-- The date capture: one or two digits, dash or slash, one or two digits, dash or slash, two to four digits. -/
def grpDate : List Item :=
  [.gOpen, .rep 1 2 isDigitC, .one dashSlash, .rep 1 2 isDigitC,
    .one dashSlash, .rep 2 4 isDigitC, .gClose]

/-- The three `date_patterns` (`src/utils/pdf_processor.py` 300-304),
searched case-sensitively on the original text. -/
def datePatterns : List (List Item) := [
  lcs "date" ++ [.star false spaceColon] ++ grpDate,
  grpDate,
  lcs "collected on" ++ [.star false spaceColon] ++ grpDate]

/-- The date loop: first matching pattern's capture wins. -/
def firstDate (text : String) : Option String :=
  datePatterns.findSome? (fun pat => reSearch pat text)

/-- The partial patient dict built by `extract_patient_info`; absent
keys are `none`. -/
structure PatientInfo where
  age : Option ℕ
  gender : Option String
  name : Option String
  test_date : Option String
deriving DecidableEq

/-- `BloodReportProcessor.extract_patient_info`
(`src/utils/pdf_processor.py` 255-312). -/
def extract_patient_info (text : String) : PatientInfo :=
  let tl := strLower text
  { age := firstAge tl,
    gender := extract_gender tl.data,
    name := firstName text,
    test_date := firstDate text }

/-! ### External-model response cleaning and the extraction pipeline -/

/-- The result of `extract_blood_values_with_llm`: either the dict
parsed from the response (the JSON payload type `J` and its parser are
the external collaborator) or the total fallback derived from the
source text. -/
inductive LLMExtract (J : Type) where
  | parsed : J → LLMExtract J
  | fromText : List (String × ℚ) → PatientInfo → LLMExtract J

/-- `startswith` on character lists. -/
def startsWithL (pre s : List Char) : Bool := s.take pre.length == pre

/-- `endswith` on character lists. -/
def endsWithL (suf s : List Char) : Bool :=
  decide (suf.length ≤ s.length) && (s.drop (s.length - suf.length) == suf)

/-- The response-cleaning steps of `extract_blood_values_with_llm`
(`src/utils/pdf_processor.py` 114-125): strip, drop a leading
`` ```json `` or `` ``` `` fence, drop a trailing `` ``` `` fence,
strip again. -/
def cleanResponse (result : String) : String :=
  let c0 := pyStrip result
  let c1 := if startsWithL "```json".data c0.data then String.mk (c0.data.drop 7)
    else c0
  let c2 := if startsWithL "```".data c1.data then String.mk (c1.data.drop 3)
    else c1
  let c3 := if endsWithL "```".data c2.data then
      String.mk (c2.data.take (c2.data.length - 3))
    else c2
  pyStrip c3

/-- Index of the last `'\x7d'` in `cs` (`str.rfind`). -/
def lastBrace (cs : List Char) : Option ℕ :=
  match cs.reverse.findIdx? (fun c => c == '\x7d') with
  | some r => some (cs.length - 1 - r)
  | none => none

/-- Locate the candidate JSON payload
(`src/utils/pdf_processor.py` 127-138): the substring from the first
`'\x7b'` to the last `'\x7d'`, provided `json_start >= 0` and
`json_end > json_start`; otherwise the `JSONDecodeError` path. -/
def jsonSubstring (clean : String) : Option String :=
  let cs := clean.data
  let jstart : Int := match cs.findIdx? (fun c => c == '\x7b') with
    | some i => (i : Int)
    | none => -1
  let jend : Int := (match lastBrace cs with
    | some i => (i : Int)
    | none => -1) + 1
  if 0 ≤ jstart ∧ jstart < jend then
    some (String.mk ((cs.drop jstart.toNat).take (jend - jstart).toNat))
  else none

/-- `BloodReportProcessor.extract_blood_values_with_llm`
(`src/utils/pdf_processor.py` 34-150), from the point where the
collaborator's `response` string is in hand: clean it, cut out the
brace-delimited substring and hand it to the JSON parser (`json.loads`
is the abstract parameter `jparse`); any failure — no brace pair, or a
parse error — falls back to `_direct_extraction_fallback`
(`src/utils/pdf_processor.py` 152-164), which re-derives blood values
and patient info together from the source text. -/
def extract_blood_values_with_llm {J : Type} (jparse : String → Option J)
    (text response : String) : LLMExtract J :=
  match jsonSubstring (cleanResponse response) with
  | some s =>
    match jparse s with
    | some j => .parsed j
    | none => .fromText (parse_blood_values text) (extract_patient_info text)
  | none => .fromText (parse_blood_values text) (extract_patient_info text)

/-! ### Document text extraction and the end-to-end pipeline -/

/-- `BloodReportProcessor.extract_text_from_pdf`
(`src/utils/pdf_processor.py` 12-22).  The PyPDF2 collaborator is
modelled at its boundary: a parse failure (`Except.error`) or the list
of per-page extracted texts.  The loop appends each page's text plus a
newline; a parse exception is re-raised with the `Error reading PDF:`
prefix. -/
def extract_text_from_pdf (doc : Except String (List String)) :
    Except String String :=
  match doc with
  | .error e => .error ("Error reading PDF: " ++ e)
  | .ok pages => .ok (pages.foldl (fun acc pg => acc ++ pg ++ "\n") "")

/-- The four dict components read off the extraction result by
`get_comprehensive_extraction` (`.get("blood_values", {})` and
friends); for the parsed-JSON case the accessor `comps` is part of the
abstract payload model, for the fallback case they are the fallback's
own fields. -/
structure ExtractionRecord where
  blood_values : List (String × Option ℚ)
  patient_info : PatientInfo
  units : List (String × String)
  reference_ranges : List (String × String)

/-- Component extraction from either branch of `LLMExtract`. -/
def recordOfLLM {J : Type} (comps : J → ExtractionRecord) :
    LLMExtract J → ExtractionRecord
  | .parsed j => comps j
  | .fromText bv pi => ⟨bv.map (fun x => (x.1, some x.2)), pi, [], []⟩

/-- The empty patient dict. -/
def emptyPI : PatientInfo := ⟨none, none, none, none⟩

/-- The result dict of `get_comprehensive_extraction`; keys absent on
the error paths are `none`/empty. -/
structure FinalResult where
  success : Bool
  error : Option String
  blood_values : List (String × ℚ)
  patient_info : PatientInfo
  units : List (String × String)
  reference_ranges : List (String × String)
  warnings : List String
  raw_text_preview : Option String
  extraction_method : Option String

/-- The result dict built on the main path of
`get_comprehensive_extraction` (`src/utils/pdf_processor.py` 376-393)
from the extracted components: validate, append the two explanatory
warnings when nothing survived, and succeed exactly when some value
survived validation. -/
def mainResult (text model_choice : String) (er : ExtractionRecord) :
    FinalResult :=
  let v := validate_extracted_data er.blood_values
  let warns2 := if v.1.isEmpty then
      v.2 ++ ["No blood values could be extracted from the PDF",
        "The PDF might not contain standard blood test results"]
    else v.2
  ⟨decide (0 < v.1.length), none, v.1, er.patient_info, er.units,
    er.reference_ranges, warns2,
    some (if 500 < text.length then String.mk (text.data.take 500) ++ "..."
      else text),
    some ("LLM-powered extraction using " ++ model_choice)⟩

/-- `BloodReportProcessor.get_comprehensive_extraction`
(`src/utils/pdf_processor.py` 350-402): extract text (an exception
becomes the error result), reject whitespace-only text, then run the
external-model extraction with total fallback and build the main
result. -/
def get_comprehensive_extraction {J : Type} (jparse : String → Option J)
    (comps : J → ExtractionRecord) (model_choice : String)
    (doc : Except String (List String)) (response : String) : FinalResult :=
  match extract_text_from_pdf doc with
  | .error e =>
    ⟨false, some e, [], emptyPI, [], [], ["Extraction failed: " ++ e],
      none, none⟩
  | .ok text =>
    if pyStrip text = "" then
      ⟨false, some "No readable text found in PDF", [], emptyPI, [], [],
        ["PDF appears to be empty or contains only images"], none, none⟩
    else
      mainResult text model_choice
        (recordOfLLM comps (extract_blood_values_with_llm jparse text response))

end Blood

namespace Blood

/-! ### Helper lemmas -/

theorem lowTrig_iff (t : CritThresholds) (v : ℚ) :
    lowTrig t v = true ↔ ∃ lo, t.critically_low = some lo ∧ v < lo := by
  cases h : t.critically_low <;> simp [lowTrig, h]

theorem highTrig_iff (t : CritThresholds) (v : ℚ) :
    highTrig t v = true ↔ ∃ hi, t.critically_high = some hi ∧ hi < v := by
  cases h : t.critically_high <;> simp [highTrig, h]

theorem lowTrig_false_iff (t : CritThresholds) (v : ℚ) :
    lowTrig t v = false ↔ ∀ lo, t.critically_low = some lo → lo ≤ v := by
  cases h : t.critically_low <;> simp [lowTrig, h, not_lt]

theorem highTrig_false_iff (t : CritThresholds) (v : ℚ) :
    highTrig t v = false ↔ ∀ hi, t.critically_high = some hi → v ≤ hi := by
  cases h : t.critically_high <;> simp [highTrig, h, not_lt]

/-! ### Claim theorems -/

/-- C1: for every parameter `p` and value `v`, if `p` has no entry in
`CRITICAL_VALUES` then `is_critical_value` reports not critical;
otherwise the result is critical at level `critically_low` exactly
when a `critically_low` threshold is defined and `v` is strictly below
it, critical at level `critically_high` exactly when the low check did
not fire, a `critically_high` threshold is defined, and `v` is
strictly above it, and not critical whenever `v` lies at or between
the defined thresholds. -/
theorem C1_is_critical_value_spec (p : String) (v : ℚ) :
    (CRITICAL_VALUES.lookup p = none →
      (is_critical_value p v).is_critical = false) ∧
    (∀ t, CRITICAL_VALUES.lookup p = some t →
      (((is_critical_value p v).is_critical = true ∧
          (is_critical_value p v).level = some "critically_low") ↔
        (∃ lo, t.critically_low = some lo ∧ v < lo)) ∧
      (((is_critical_value p v).is_critical = true ∧
          (is_critical_value p v).level = some "critically_high") ↔
        ((∀ lo, t.critically_low = some lo → lo ≤ v) ∧
          ∃ hi, t.critically_high = some hi ∧ hi < v)) ∧
      (((∀ lo, t.critically_low = some lo → lo ≤ v) ∧
          (∀ hi, t.critically_high = some hi → v ≤ hi)) →
        (is_critical_value p v).is_critical = false)) := by
  constructor
  · intro h
    simp [is_critical_value, h]
  · intro t ht
    refine ⟨?_, ?_, ?_⟩
    · rw [← lowTrig_iff]
      cases hl : lowTrig t v <;> cases hh : highTrig t v <;>
        simp [is_critical_value, ht, hl, hh]
    · rw [← highTrig_iff, ← lowTrig_false_iff]
      cases hl : lowTrig t v <;> cases hh : highTrig t v <;>
        simp [is_critical_value, ht, hl, hh]
    · rw [← lowTrig_false_iff, ← highTrig_false_iff]
      intro ⟨hl, hh⟩
      simp [is_critical_value, ht, hl, hh]

/-- C1 witness: hemoglobin at value 5 has an entry, is below the
critically-low threshold 7, and is reported critical at level
`critically_low`. -/
theorem C1_witness :
    (is_critical_value "hemoglobin" 5).is_critical = true ∧
      (is_critical_value "hemoglobin" 5).level = some "critically_low" :=
  ((C1_is_critical_value_spec "hemoglobin" 5).2 ⟨some 7, some 20⟩ rfl).1.mpr
    ⟨7, rfl, by norm_num⟩

/-- C3: for a gender-keyed range, a recognized gender returns that
gender's pair; an absent or unrecognized gender returns the
synthesized pair `(min(male low, female low), max(male high, female
high))`; a fixed range is returned regardless of gender; and
hemoglobin with no gender gives `(12.0, 17.0)`. -/
theorem C3_get_normal_range_spec :
    (∀ p m f, NORMAL_RANGES.lookup p = some (.byGender m f) →
      (∀ g : String, strLower g = "male" →
        get_normal_range p (some g) = .ok m) ∧
      (∀ g : String, strLower g = "female" →
        get_normal_range p (some g) = .ok f) ∧
      get_normal_range p none = .ok (RVal.rmin m.1 f.1, RVal.rmax m.2 f.2) ∧
      (∀ g : String, strLower g ≠ "male" → strLower g ≠ "female" →
        get_normal_range p (some g) =
          .ok (RVal.rmin m.1 f.1, RVal.rmax m.2 f.2))) ∧
    (∀ p lo hi g, NORMAL_RANGES.lookup p = some (.fixed lo hi) →
      get_normal_range p g = .ok (lo, hi)) ∧
    get_normal_range "hemoglobin" none = .ok (.fin 12.0, .fin 17.0) := by
  refine ⟨?_, ?_, ?_⟩
  · intro p m f hp
    refine ⟨?_, ?_, ?_, ?_⟩
    · intro g hg
      have hne : g ≠ "" := by
        intro h
        rw [h] at hg
        exact absurd hg (by decide)
      simp [get_normal_range, hp, hg, hne]
    · intro g hg
      have hne : g ≠ "" := by
        intro h
        rw [h] at hg
        exact absurd hg (by decide)
      have hgm : strLower g ≠ "male" := by
        rw [hg]
        decide
      simp [get_normal_range, hp, hg, hne, hgm]
    · simp [get_normal_range, hp]
    · intro g hgm hgf
      simp [get_normal_range, hp, hgm, hgf]
  · intro p lo hi g hp
    simp [get_normal_range, hp]
  · have h12 : RVal.rmin (.fin 13.0) (.fin 12.0) = .fin 12.0 := by
      simp only [RVal.rmin, RVal.le]
      norm_num
    have h17 : RVal.rmax (.fin 17.0) (.fin 15.5) = .fin 17.0 := by
      simp only [RVal.rmax, RVal.le]
      norm_num
    show Except.ok (RVal.rmin (.fin 13.0) (.fin 12.0),
      RVal.rmax (.fin 17.0) (.fin 15.5)) = _
    rw [h12, h17]

/-- C3 witness: hemoglobin is gender-keyed with male range (13, 17)
and female range (12, 15.5); a recognized gender returns that pair and
no gender returns the synthesized (12, 17). -/
theorem C3_witness :
    get_normal_range "hemoglobin" (some "male") = .ok (.fin 13.0, .fin 17.0) ∧
      get_normal_range "hemoglobin" none = .ok (.fin 12.0, .fin 17.0) := by
  have h := C3_get_normal_range_spec
  have h1 := (h.1 "hemoglobin" (.fin 13.0, .fin 17.0) (.fin 12.0, .fin 15.5)
    rfl).1 "male" rfl
  have h2 := h.2.2
  exact ⟨h1, h2⟩

theorem foldl_critStep_level (bd : List (String × ℚ))
    (acc : EmergencyIndicators) :
    (bd.foldl critStep acc).emergency_level =
      if bd.any (fun pv => (is_critical_value pv.1 pv.2).is_critical)
      then "critical" else acc.emergency_level := by
  induction bd generalizing acc with
  | nil => simp
  | cons hd tl ih =>
    simp only [List.foldl_cons, List.any_cons]
    by_cases h : (is_critical_value hd.1 hd.2).is_critical
    · rw [ih]
      simp [critStep, h]
    · rw [Bool.not_eq_true] at h
      rw [ih]
      simp only [h, Bool.false_or]
      simp [critStep, h]

theorem matchRule_level (e : EmergencyIndicators) (o : Option ℚ)
    (cond : ℚ → Bool) (param msg : String) :
    (matchRule e o cond param msg).emergency_level =
      if ((match o with | some v => cond v | none => false) &&
          (e.emergency_level == "normal"))
      then "urgent" else e.emergency_level := by
  cases o with
  | none => simp [matchRule]
  | some v =>
    by_cases hc : cond v <;>
      by_cases hn : e.emergency_level = "normal" <;>
      simp [matchRule, urgentRule, hc, hn]

theorem cei_level (bd : List (String × ℚ)) :
    (check_emergency_indicators bd).emergency_level =
      if bd.any (fun pv => (is_critical_value pv.1 pv.2).is_critical)
      then "critical"
      else if (match bd.lookup "hemoglobin" with
          | some h => decide (h < 13.0) | none => false) then "urgent"
      else if (match bd.lookup "platelets" with
          | some p => decide (p ≤ 150000) | none => false) then "urgent"
      else if (match bd.lookup "hematocrit" with
          | some h => decide (55 < h) | none => false) then "urgent"
      else "normal" := by
  show (matchRule (matchRule (matchRule _ _ _ _ _) _ _ _ _)
    _ _ _ _).emergency_level = _
  rw [matchRule_level, matchRule_level, matchRule_level,
    foldl_critStep_level]
  by_cases hcrit :
      bd.any (fun pv => (is_critical_value pv.1 pv.2).is_critical)
  · simp [hcrit]
  · simp only [hcrit, if_false, if_neg, Bool.false_eq_true]
    by_cases h1 : (match bd.lookup "hemoglobin" with
        | some h => decide (h < 13.0) | none => false) = true <;>
      by_cases h2 : (match bd.lookup "platelets" with
        | some p => decide (p ≤ 150000) | none => false) = true <;>
      by_cases h3 : (match bd.lookup "hematocrit" with
        | some h => decide (55 < h) | none => false) = true <;>
      simp [h1, h2, h3]

/-- C2: the aggregated emergency level is `"critical"` exactly when
some reading is critical per the thresholds check; in the absence of a
critical reading it is `"urgent"` exactly when a named clinical rule
fires (hemoglobin < 13, platelets <= 150000, hematocrit > 55), and
`"normal"` otherwise; a firing urgent rule never downgrades
`"critical"`.  In particular platelets at exactly 150000 classify as
`"normal"` against the range (150000, 410000), are not critical, yet
yield emergency level `"urgent"`. -/
theorem C2_emergency_level_spec (bd : List (String × ℚ)) :
    ((check_emergency_indicators bd).emergency_level = "critical" ↔
      ∃ pv ∈ bd, (is_critical_value pv.1 pv.2).is_critical = true) ∧
    ((¬ ∃ pv ∈ bd, (is_critical_value pv.1 pv.2).is_critical = true) →
      (((check_emergency_indicators bd).emergency_level = "urgent" ↔
          urgentFires bd) ∧
        (¬ urgentFires bd →
          (check_emergency_indicators bd).emergency_level = "normal"))) ∧
    (quickStatus "platelets" 150000 = "normal" ∧
      (is_critical_value "platelets" 150000).is_critical = false ∧
      (check_emergency_indicators [("platelets", 150000)]).emergency_level =
        "urgent") := by
  have hany : bd.any (fun pv => (is_critical_value pv.1 pv.2).is_critical) ↔
      ∃ pv ∈ bd, (is_critical_value pv.1 pv.2).is_critical = true := by
    simp [List.any_eq_true]
  have hfird : (((match bd.lookup "hemoglobin" with
        | some h => decide (h < 13.0) | none => false) = true ∨
      (match bd.lookup "platelets" with
        | some p => decide (p ≤ 150000) | none => false) = true ∨
      (match bd.lookup "hematocrit" with
        | some h => decide (55 < h) | none => false) = true) ↔
      urgentFires bd) := by
    unfold urgentFires
    cases bd.lookup "hemoglobin" <;> cases bd.lookup "platelets" <;>
      cases bd.lookup "hematocrit" <;> simp
  have hplt : (is_critical_value "platelets" 150000).is_critical = false := by
    have ht : CRITICAL_VALUES.lookup "platelets" =
        some ⟨some 50000, some 1000000⟩ := rfl
    simp only [is_critical_value, ht, lowTrig, highTrig]
    norm_num
  have sUC : ("urgent" : String) ≠ "critical" := by decide
  have sNC : ("normal" : String) ≠ "critical" := by decide
  have sNU : ("normal" : String) ≠ "urgent" := by decide
  refine ⟨?_, ?_, ?_, hplt, ?_⟩
  · rw [cei_level]
    by_cases hcrit :
        bd.any (fun pv => (is_critical_value pv.1 pv.2).is_critical)
    · simp [hcrit, hany.symm]
    · rw [if_neg (by simp [hcrit])]
      rw [hany] at hcrit
      simp only [hcrit, iff_false]
      split_ifs <;> first
        | exact sUC
        | exact sNC
  · intro hnc
    rw [← hany] at hnc
    rw [cei_level, if_neg (by simp [hnc])]
    constructor
    · rw [← hfird]
      split_ifs with a b c
      · simp [a]
      · simp [a, b]
      · simp [a, b, c]
      · simp [a, b, c, sNU]
    · rw [← hfird]
      intro hu
      rcases not_or.mp hu with ⟨u1, u23⟩
      rcases not_or.mp u23 with ⟨u2, u3⟩
      simp only [Bool.not_eq_true] at u1 u2 u3
      simp [u1, u2, u3]
  · have hr : get_normal_range "platelets" none =
        .ok (.fin 150000, .fin 410000) := rfl
    simp only [quickStatus, hr, hplt, RVal.geF, RVal.leF]
    norm_num
  · rw [cei_level]
    have h0 : (is_critical_value "platelets" 150000).is_critical = false := by
      have ht : CRITICAL_VALUES.lookup "platelets" =
          some ⟨some 50000, some 1000000⟩ := rfl
      simp only [is_critical_value, ht, lowTrig, highTrig]
      norm_num
    have hlk : List.lookup "hemoglobin" [("platelets", (150000 : ℚ))] =
        none := rfl
    have hlk2 : List.lookup "platelets" [("platelets", (150000 : ℚ))] =
        some 150000 := rfl
    simp only [List.any_cons, List.any_nil, h0, hlk, hlk2, Bool.or_false]
    norm_num

/-- C2 witness: the theorem applied at the singleton reading mapping
with platelets exactly 150000 yields emergency level `"urgent"`. -/
theorem C2_witness :
    (check_emergency_indicators [("platelets", (150000 : ℚ))]).emergency_level =
      "urgent" :=
  (C2_emergency_level_spec []).2.2.2.2

theorem validate_eq_filterMap (data : List (String × Option ℚ)) :
    validate_extracted_data data =
      (data.filterMap keptEntry, data.filterMap warnEntry) := by
  induction data with
  | nil => rfl
  | cons hd tl ih =>
    obtain ⟨param, v⟩ := hd
    cases v with
    | none =>
      simp only [validate_extracted_data, ih, List.filterMap_cons]
      simp [keptEntry, warnEntry]
    | some value =>
      cases hl : reasonable_ranges.lookup param with
      | none =>
        simp only [validate_extracted_data, ih, List.filterMap_cons, hl]
        simp [keptEntry, warnEntry, hl]
      | some r =>
        obtain ⟨mn, mx⟩ := r
        by_cases hio : mn ≤ value ∧ value ≤ mx <;>
          simp only [validate_extracted_data, ih, List.filterMap_cons, hl] <;>
          simp [keptEntry, warnEntry, hl, hio]

theorem keptEntry_eq (e : String × Option ℚ) (p : String) (v : ℚ)
    (h : keptEntry e = some (p, v)) : e = (p, some v) := by
  obtain ⟨q, w⟩ := e
  cases w with
  | none => simp [keptEntry] at h
  | some value =>
    cases hl : reasonable_ranges.lookup q with
    | none =>
      simp only [keptEntry, hl] at h
      obtain ⟨h1, h2⟩ := Prod.mk.injEq .. ▸ Option.some.injEq .. ▸ h
      simp_all
    | some r =>
      obtain ⟨mn, mx⟩ := r
      by_cases hio : mn ≤ value ∧ value ≤ mx <;>
        simp only [keptEntry, hl, hio, if_pos, if_neg] at h <;> simp_all

theorem filterMap_skip_none {β : Type} (f : String × Option ℚ → Option β)
    (hf : ∀ p, f (p, none) = none) (l : List (String × Option ℚ)) :
    (l.filter (fun e => e.2 ≠ none)).filterMap f = l.filterMap f := by
  induction l with
  | nil => rfl
  | cons hd tl ih =>
    obtain ⟨p, v⟩ := hd
    simp only [decide_not] at ih
    cases v <;> simp [List.filter_cons, List.filterMap_cons, hf, decide_not, ih]

/-- C4: the plausibility validator keeps exactly the present entries
whose parameter has no declared sanity range or whose value lies
within it; each present value outside its sanity range contributes no
output entry and exactly one warning naming the parameter, the value
and the expected range; entries are independent and the record is not
rejected as a whole (hemoglobin 150 against 5-25 is dropped with a
warning while mcv 85 survives). -/
theorem C4_validate_extracted_data_spec (data : List (String × Option ℚ)) :
    validate_extracted_data data =
      (data.filterMap keptEntry, data.filterMap warnEntry) ∧
    validate_extracted_data [("hemoglobin", some 150), ("mcv", some 85)] =
      ([("mcv", 85)], [unusualMsg "hemoglobin" 150 5 25]) := by
  refine ⟨validate_eq_filterMap data, ?_⟩
  have l1 : reasonable_ranges.lookup "hemoglobin" = some (5, 25) := rfl
  have l2 : reasonable_ranges.lookup "mcv" = none := rfl
  have h1 : ¬((5 : ℚ) ≤ 150 ∧ (150 : ℚ) ≤ 25) := by norm_num
  simp [validate_extracted_data, l1, l2, h1]

/-- C4 witness: the validator applied to the empty mapping (the
theorem instantiated there) keeps nothing and warns nothing. -/
theorem C4_witness :
    validate_extracted_data [("hemoglobin", some 150), ("mcv", some 85)] =
      ([("mcv", 85)], [unusualMsg "hemoglobin" 150 5 25]) :=
  (C4_validate_extracted_data_spec []).2

/-- C10: every output pair of the plausibility validator is present in
the input with the identical value, and entries whose value is `None`
are dropped silently — removing them from the input changes neither
the validated set nor the warnings.  The validator never fabricates,
renames or alters a value. -/
theorem C10_validate_no_fabrication (data : List (String × Option ℚ)) :
    (∀ p v, (p, v) ∈ (validate_extracted_data data).1 →
      (p, some v) ∈ data) ∧
    validate_extracted_data data =
      validate_extracted_data (data.filter (fun e => e.2 ≠ none)) := by
  constructor
  · intro p v hm
    rw [validate_eq_filterMap] at hm
    simp only [List.mem_filterMap] at hm
    obtain ⟨e, he, hk⟩ := hm
    have := keptEntry_eq e p v hk
    rwa [this] at he
  · rw [validate_eq_filterMap, validate_eq_filterMap]
    rw [filterMap_skip_none keptEntry (fun p => rfl),
      filterMap_skip_none warnEntry (fun p => rfl)]

/-- C10 witness: the theorem applied at a concrete two-entry input; a
`None`-valued entry has no effect on the result. -/
theorem C10_witness :
    validate_extracted_data [("hemoglobin", (none : Option ℚ)),
        ("mcv", some (85 : ℚ))] =
      validate_extracted_data (([("hemoglobin", (none : Option ℚ)),
        ("mcv", some (85 : ℚ))]).filter (fun e => e.2 ≠ none)) :=
  (C10_validate_no_fabrication
    [("hemoglobin", none), ("mcv", some 85)]).2

theorem tryPatterns_eq_findSome (pats : List (List Item)) (text : String) :
    tryPatterns pats text =
      pats.findSome? (fun pat => (reSearch pat text).bind pyFloat) := by
  induction pats with
  | nil => rfl
  | cons pat rest ih =>
    cases hs : reSearch pat text with
    | none => simp [tryPatterns, hs, List.findSome?_cons, ih]
    | some cap =>
      cases hf : pyFloat cap with
      | none => simp [tryPatterns, hs, hf, List.findSome?_cons, ih]
      | some v => simp [tryPatterns, hs, hf, List.findSome?_cons]

/-- C5: for every text, the pattern extractor's result is, parameter
by parameter in table order, the value of the first candidate pattern
that matches and whose capture parses as a number (a capture failing
to parse falls through to the next candidate, and a parameter with no
succeeding candidate is absent); on the labelled text
`Hemoglobin (Hb) 11.2` the extractor yields 11.2 for hemoglobin even
though an unrelated number appears later. -/
theorem C5_parse_blood_values_spec (text : String) :
    parse_blood_values text =
      bloodPatterns.filterMap (fun pp =>
        (pp.2.findSome? (fun pat => (reSearch pat text).bind pyFloat)).map
          (fun v => (pp.1, v))) ∧
    (parse_blood_values "Hemoglobin (Hb) 11.2 Sample ID 4521").lookup
        "hemoglobin" = some (11.2 : ℚ) := by
  constructor
  · unfold parse_blood_values
    congr 1
    funext pp
    rw [tryPatterns_eq_findSome]
  · have h1 : (parse_blood_values
        "Hemoglobin (Hb) 11.2 Sample ID 4521").lookup "hemoglobin" =
        pyFloat "11.2" := rfl
    have h2 : pyFloat "11.2" = some ((natOfDigits ['1', '1'] : ℚ) +
        (natOfDigits ['2'] : ℚ) / ((10 : ℚ) ^ (1 : ℕ))) := rfl
    have h3 : natOfDigits ['1', '1'] = 11 := rfl
    have h4 : natOfDigits ['2'] = 2 := rfl
    rw [h1, h2, h3, h4]
    simp only [Option.some.injEq]
    norm_num

/-- C5 witness: the characterization applied at the example text. -/
theorem C5_witness :
    (parse_blood_values "Hemoglobin (Hb) 11.2 Sample ID 4521").lookup
        "hemoglobin" = some (11.2 : ℚ) :=
  (C5_parse_blood_values_spec "").2

/-- C9: whenever `female` (or `f`) occurs as a whole word in the
lowercased text and neither `male` nor `m` does, the extracted gender
is `female`; and an occurrence of `male` as a substring of `female` is
never a whole-word occurrence of `male`, because the preceding
character `e` is a word character. -/
theorem C9_gender_whole_word (text : String) :
    (hasWholeWordAlt genderFemale (strLower text).data = true →
      hasWholeWordAlt genderMale (strLower text).data = false →
      (extract_patient_info text).gender = some "female") ∧
    (∀ (s : List Char) (i : ℕ),
      wholeWordAt s i ['f', 'e', 'm', 'a', 'l', 'e'] = true →
      wholeWordAt s (i + 2) ['m', 'a', 'l', 'e'] = false) := by
  constructor
  · intro hf hm
    simp [extract_patient_info, extract_gender, hf, hm]
  · intro s i hf
    have hA : (s.drop i).take 6 = ['f', 'e', 'm', 'a', 'l', 'e'] := by
      simp only [wholeWordAt, Bool.and_eq_true, beq_iff_eq] at hf
      exact hf.1.1
    have he : s[i + 1]? = some 'e' := by
      have h6 : ((s.drop i).take 6)[1]? = some 'e' := by
        rw [hA]
        rfl
      have h7 : ((s.drop i).take 6)[1]? = (s.drop i)[1]? :=
        List.getElem?_take_of_lt (by norm_num)
      rw [h7] at h6
      rwa [List.getElem?_drop] at h6
    have hgd : s.getD (i + 1) ' ' = 'e' := by
      simp [List.getD_eq_getElem?_getD, he]
    have hi1 : i + 2 - 1 = i + 1 := by omega
    have hz : (i + 2 == 0) = false := by
      have hne : i + 2 ≠ 0 := by omega
      simp [hne]
    have hB : ((i + 2 == 0) || !(pyWordChar (s.getD (i + 2 - 1) ' '))) =
        false := by
      rw [hi1, hgd, hz]
      decide
    simp only [wholeWordAt]
    rw [hB]
    simp

/-- C9 witness: on a report line containing `Female` the extractor
returns gender `female`; the `male` letters inside `Female` do not
register. -/
theorem C9_witness :
    (extract_patient_info
      "Patient: Jane Roe, Gender: Female, Age: 34").gender = some "female" :=
  (C9_gender_whole_word "Patient: Jane Roe, Gender: Female, Age: 34").1
    (by decide) (by decide)

/-- C6: after stripping whitespace and code fences, the substring from
the first open brace to the last close brace is handed to the JSON
parser and, on success, its payload is returned; when no brace pair
exists or the parse fails, the result is entirely the pattern-based
fallback on the source text (blood values and patient info together).
The cleaning of the fenced example response extracts exactly the JSON
object. -/
theorem C6_response_cleaning {J : Type} (jparse : String → Option J)
    (text response : String) :
    (∀ s, jsonSubstring (cleanResponse response) = some s →
      (∀ j, jparse s = some j →
        extract_blood_values_with_llm jparse text response = .parsed j) ∧
      (jparse s = none →
        extract_blood_values_with_llm jparse text response =
          .fromText (parse_blood_values text) (extract_patient_info text))) ∧
    (jsonSubstring (cleanResponse response) = none →
      extract_blood_values_with_llm jparse text response =
        .fromText (parse_blood_values text) (extract_patient_info text)) ∧
    jsonSubstring (cleanResponse
        "Here is the data: ```json\n\x7b\"blood_values\":\x7b\"hemoglobin\":11.2\x7d\x7d\n```") =
      some "\x7b\"blood_values\":\x7b\"hemoglobin\":11.2\x7d\x7d" := by
  refine ⟨?_, ?_, by decide⟩
  · intro s hs
    constructor
    · intro j hj
      simp [extract_blood_values_with_llm, hs, hj]
    · intro hj
      simp [extract_blood_values_with_llm, hs, hj]
  · intro hn
    simp [extract_blood_values_with_llm, hn]

/-- C6 witness: with a parser that always fails, the fenced example
response falls back to full pattern extraction of the source text. -/
theorem C6_witness :
    extract_blood_values_with_llm (fun _ => (none : Option Unit)) "T"
        "Here is the data: ```json\n\x7b\"blood_values\":\x7b\"hemoglobin\":11.2\x7d\x7d\n```" =
      .fromText (parse_blood_values "T") (extract_patient_info "T") := by
  have h := C6_response_cleaning (J := Unit) (fun _ => none) "T"
    "Here is the data: ```json\n\x7b\"blood_values\":\x7b\"hemoglobin\":11.2\x7d\x7d\n```"
  exact (h.1 _ h.2.2).2 rfl

theorem foldl_pages_data (pages : List String) (acc : String) :
    (pages.foldl (fun a pg => a ++ pg ++ "\n") acc).data =
      acc.data ++ (pages.map (fun p => p.data ++ ['\n'])).flatten := by
  induction pages generalizing acc with
  | nil => simp
  | cons hd tl ih =>
    simp only [List.foldl_cons, List.map_cons, List.flatten, ih]
    simp [String.data_append]

/-- C8 counterexample: a document that parses with one page bearing no
text returns the string of one newline, not the empty string; and a
zero-page parse is a success, not an error. -/
theorem C8_counterexample :
    extract_text_from_pdf (.ok [""]) = .ok "\n" ∧ ("\n" : String) ≠ "" ∧
      extract_text_from_pdf (.ok []) = .ok "" :=
  ⟨rfl, by decide, rfl⟩

/-- C8 (amended): `extract_text` returns the per-page texts in page
order, each followed by a newline separator; it fails (with the
`Error reading PDF:` wrapper) exactly when the underlying document
parse fails; a document that parses but contains no embedded text
returns a successful string consisting only of the page-separator
newlines (empty only for zero pages), not an error. -/
theorem C8_extract_text_amended (doc : Except String (List String)) :
    (∀ e, doc = .error e →
      extract_text_from_pdf doc = .error ("Error reading PDF: " ++ e)) ∧
    (∀ pages, doc = .ok pages →
      ∃ t, extract_text_from_pdf doc = .ok t ∧
        t.data = (pages.map (fun p => p.data ++ ['\n'])).flatten ∧
        ((∀ p ∈ pages, p = "") →
          t.data.all (fun c => c == '\n') = true)) := by
  constructor
  · intro e he
    rw [he]
    rfl
  · intro pages hp
    rw [hp]
    refine ⟨_, rfl, ?_, ?_⟩
    · show (pages.foldl (fun a pg => a ++ pg ++ "\n") "").data = _
      rw [foldl_pages_data]
      rfl
    · intro hall
      show ((pages.foldl (fun a pg => a ++ pg ++ "\n") "").data.all
        (fun c => c == '\n')) = true
      rw [foldl_pages_data]
      rw [List.all_eq_true]
      intro x hx
      simp only [List.mem_append, List.mem_flatten, List.mem_map] at hx
      rcases hx with hx | ⟨l, ⟨p, hpmem, hpl⟩, hxl⟩
      · simp at hx
      · rw [hall p hpmem] at hpl
        rw [← hpl] at hxl
        simp at hxl
        simp [hxl]

/-- C8 witness: the amended theorem applied at the one-empty-page
document. -/
theorem C8_witness :
    ∃ t, extract_text_from_pdf (.ok [""]) = .ok t ∧
      t.data = (([""] : List String).map (fun p => p.data ++ ['\n'])).flatten ∧
      ((∀ p ∈ ([""] : List String), p = "") →
        t.data.all (fun c => c == '\n') = true) :=
  (C8_extract_text_amended (.ok [""])).2 [""] rfl

/-- C7: the end-to-end extraction result's `success` is true exactly
when at least one blood value survives plausibility validation; a
failed result always carries at least one explanatory warning (and the
function is total, so no exception reaches the caller); on the main
path the surviving values are exactly the validated ones and a
zero-survivor run records the explanatory warning. -/
theorem C7_success_iff {J : Type} (jparse : String → Option J)
    (comps : J → ExtractionRecord) (model_choice : String)
    (doc : Except String (List String)) (response : String)
    (r : FinalResult)
    (hr : r = get_comprehensive_extraction jparse comps model_choice doc
      response) :
    (r.success = true ↔ r.blood_values ≠ []) ∧
    (r.success = false → r.warnings ≠ []) ∧
    (∀ text, extract_text_from_pdf doc = .ok text → pyStrip text ≠ "" →
      r.blood_values = (validate_extracted_data (recordOfLLM comps
        (extract_blood_values_with_llm jparse text response)).blood_values).1 ∧
      (r.blood_values = [] →
        "No blood values could be extracted from the PDF" ∈ r.warnings)) := by
  subst hr
  unfold get_comprehensive_extraction
  cases hdoc : extract_text_from_pdf doc with
  | error e =>
    refine ⟨by simp, fun _ => by simp, ?_⟩
    intro text ht
    exact absurd ht (by simp)
  | ok text =>
    dsimp only
    by_cases hst : pyStrip text = ""
    · rw [if_pos hst]
      refine ⟨by simp, fun _ => by simp, ?_⟩
      intro text' ht' hst'
      injection ht' with h'
      exact absurd (h' ▸ hst) hst'
    · rw [if_neg hst]
      obtain ⟨er, her⟩ : ∃ er, er = recordOfLLM comps
          (extract_blood_values_with_llm jparse text response) := ⟨_, rfl⟩
      rw [← her]
      have hsucc : (mainResult text model_choice er).success =
          decide (0 < (validate_extracted_data er.blood_values).1.length) := by
        rfl
      have hbv : (mainResult text model_choice er).blood_values =
          (validate_extracted_data er.blood_values).1 := by
        rfl
      have hwarn : (mainResult text model_choice er).warnings =
          (if (validate_extracted_data er.blood_values).1.isEmpty then
            (validate_extracted_data er.blood_values).2 ++
              ["No blood values could be extracted from the PDF",
                "The PDF might not contain standard blood test results"]
          else (validate_extracted_data er.blood_values).2) := by
        rfl
      refine ⟨?_, ?_, ?_⟩
      · rw [hsucc, hbv]
        simp only [decide_eq_true_eq]
        exact List.length_pos
      · intro hs
        rw [hsucc] at hs
        simp only [decide_eq_false_iff_not, Nat.not_lt, Nat.le_zero,
          List.length_eq_zero] at hs
        rw [hwarn, hs]
        simp
      · intro text' ht' hst'
        injection ht' with h'
        subst h'
        rw [← her]
        refine ⟨hbv, ?_⟩
        intro hbv0
        rw [hbv] at hbv0
        rw [hwarn, hbv0]
        simp

/-- C7 witness: a one-page document whose text matches no pattern
yields zero surviving values and the explanatory warning. -/
theorem C7_witness :
    "No blood values could be extracted from the PDF" ∈
      (get_comprehensive_extraction (fun _ => (none : Option Unit))
        (fun _ => ⟨[], emptyPI, [], []⟩) "m" (.ok ["x"]) "").warnings := by
  have h := C7_success_iff (fun _ => (none : Option Unit))
    (fun _ => ⟨[], emptyPI, [], []⟩) "m" (.ok ["x"]) "" _ rfl
  exact (h.2.2 "x\n" rfl (by decide)).2 (by decide)

end Blood
